/-
Verification of django-if-active: a Django helper consisting of a middleware
that stashes the resolved view function and its call arguments on the request
(src/__init__.py) and the `ifactive` / `activeif` template tags that compare a
named target view against that stashed state (src/templatetags/if_active.py).

The embedding is shallow:
  * Python dicts over string keys are association lists (`Dict`) with
    first-match lookup; `d.update(e)` is `dupdate d e = e ++ d`, so entries of
    `e` win, matching Python's override semantics.  Python `==` on dicts is the
    extensional equality `DictEq` (decidable).
  * View functions are identified by a `Nat` object id; Python's `is` identity
    test on views becomes equality of ids, and Python `None` is `Option.none`,
    so a possibly-None view reference is `Option Nat`.
  * A request is a record of the three optional attributes this package
    touches (`none` = attribute absent) plus an opaque remainder `other`.
  * Django's urlconf is the inductive `URLPat` tree; `RegexURLResolver`
    nodes carry `default_kwargs` and children, `RegexURLPattern` leaves carry
    `name`, the private `_callback_str`, the callback and `default_args`.
  * Exceptions (`KeyError`, `AttributeError`, `TemplateSyntaxError`,
    `IndexError`) are modelled with `Except PyErr`.
  * The framework collaborators (template parser, filter-expression
    compilation and resolution, variable resolution) are abstract total
    functions supplied by `Parser` and `Context`.
-/
import Mathlib

set_option autoImplicit false

namespace IfActive

universe u

variable {α : Type u} {β : Type u}

/-- A Python dict with string keys, as an association list.  Lookup takes the
first matching entry, so "newer" entries are consed at the front. -/
abbrev Dict (α : Type u) : Type u := List (String × α)

/-- Python `d[k]` as an `Option`: the first entry whose key is `k`. -/
def dget (d : Dict α) (k : String) : Option α :=
  (d.find? (fun kv => kv.1 == k)).map Prod.snd

/-- Python `d.update(e)`: entries of `e` override entries of `d`. -/
def dupdate (d e : Dict α) : Dict α := e ++ d

/-- Python `==` on dicts: extensional equality of lookups. -/
def DictEq (d e : Dict α) : Prop := ∀ k, dget d k = dget e k

@[simp] theorem dget_nil (k : String) : dget ([] : Dict α) k = none := rfl

theorem dget_cons (k1 : String) (v : α) (d : Dict α) (k : String) :
    dget ((k1, v) :: d) k = if k1 = k then some v else dget d k := by
  by_cases h : k1 = k
  · simp [dget, List.find?, h]
  · simp [dget, List.find?, beq_eq_false_iff_ne.mpr h, h]

theorem dget_append (d e : Dict α) (k : String) :
    dget (d ++ e) k = ((dget d k).map some).getD (dget e k) := by
  induction d with
  | nil => simp
  | cons kv tl ih =>
    rcases kv with ⟨k1, v⟩
    by_cases h : k1 = k <;> simp [dget_cons, h, ih]

theorem dget_eq_none_of_not_mem (d : Dict α) (k : String)
    (h : k ∉ d.map Prod.fst) : dget d k = none := by
  induction d with
  | nil => rfl
  | cons kv tl ih =>
    rcases kv with ⟨k1, v⟩
    simp only [List.map_cons, List.mem_cons] at h
    push_neg at h
    rw [dget_cons, if_neg (Ne.symm h.1)]
    exact ih h.2

theorem dictEq_iff_bounded (d e : Dict α) :
    DictEq d e ↔ ∀ k ∈ d.map Prod.fst ++ e.map Prod.fst, dget d k = dget e k := by
  constructor
  · intro h k _
    exact h k
  · intro h k
    by_cases hk : k ∈ d.map Prod.fst ++ e.map Prod.fst
    · exact h k hk
    · simp only [List.mem_append] at hk
      push_neg at hk
      rw [dget_eq_none_of_not_mem d k hk.1, dget_eq_none_of_not_mem e k hk.2]

instance [DecidableEq α] (d e : Dict α) : Decidable (DictEq d e) :=
  decidable_of_iff _ (dictEq_iff_bounded d e).symm

/-- If a key occurs exactly once among the keys of `d`, its lookup returns the
value it is paired with. -/
theorem dget_of_count_one (d : Dict α) (k : String) (v : α)
    (hmem : (k, v) ∈ d) (hcount : (d.map Prod.fst).count k = 1) :
    dget d k = some v := by
  induction d with
  | nil => cases hmem
  | cons kv tl ih =>
    rcases kv with ⟨k1, v1⟩
    rw [dget_cons]
    by_cases h : k1 = k
    · subst h
      rw [if_pos rfl]
      simp only [List.map_cons, List.count_cons_self] at hcount
      have htl : (tl.map Prod.fst).count k1 = 0 := by omega
      rcases List.mem_cons.mp hmem with heq | hmem'
      · rw [(Prod.mk.injEq _ _ _ _).mp heq.symm |>.2]
      · exfalso
        have : k1 ∈ tl.map Prod.fst := List.mem_map.mpr ⟨(k1, v), hmem', rfl⟩
        rw [← List.count_pos_iff] at this
        omega
    · rw [if_neg h]
      rcases List.mem_cons.mp hmem with heq | hmem'
      · exact absurd ((Prod.mk.injEq _ _ _ _).mp heq.symm).1 h
      · refine ih hmem' ?_
        simpa [List.count_cons, h] using hcount

/-- The Python exceptions that the code under verification can raise. -/
inductive PyErr : Type where
  | keyError (msg : String)
  | attributeError (name : String)
  | templateSyntaxError (msg : String)
  | indexError
  deriving DecidableEq, Repr

/-- A Django `HttpRequest`, restricted to what this package reads or writes:
the three attributes stashed by `ActiveViewMiddleware.process_view`
(`none` means the attribute is absent, as when the middleware is not
installed), plus an opaque bag `other` standing for every other attribute of
the request object.  A stashed view function is a `Nat` object id; reading
`_view_func` with a `getattr` default of Python `None` yields `Option Nat`. -/
structure Request (α : Type u) : Type u where
  view_func : Option (Option Nat)
  view_args : Option (List α)
  view_kwargs : Option (Dict α)
  other : List (String × String)

/-- src/__init__.py, `ActiveViewMiddleware.process_view`: records the view
function used on this request together with its `*args` (a tuple, converted
to a list) and `**kwargs`. -/
def process_view (request : Request α) (view_func : Nat) (view_args : Array α)
    (view_kwargs : Dict α) : Request α :=
  { request with
      view_func := some (some view_func)
      view_args := some view_args.toList
      view_kwargs := some view_kwargs }

mutual

/-- A node of Django's urlconf tree: either a `RegexURLPattern` leaf, with its
`name`, the private `_callback_str` (the import-path string, when present),
its `callback` (a possibly-None view reference) and its `default_args`; or a
`RegexURLResolver` with its `default_kwargs` and its own `url_patterns`. -/
inductive URLPat (α : Type u) : Type u where
  | pattern (name : Option String) (callback_str : Option String)
      (callback : Option Nat) (default_args : Dict α)
  | resolver (default_kwargs : Dict α) (url_patterns : URLPats α)

/-- A `url_patterns` list (a list of `URLPat`, as a mutual inductive so that
structural recursion and induction over the tree are available). -/
inductive URLPats (α : Type u) : Type u where
  | nil
  | cons (p : URLPat α) (rest : URLPats α)

end

/-- The value type of the patterns map: `(view function, default args)`. -/
abbrev ViewEntry (α : Type u) : Type u := Option Nat × Dict α

mutual

/-- src/templatetags/if_active.py, `_get_patterns_map`, as the loop over
`resolver.url_patterns`: later patterns' entries override earlier ones
(Python `dict.update` / item assignment), which with first-match lookup means
the later entries sit in front. -/
def _get_patterns_map (pats : URLPats α) (default_args : Dict α) :
    Dict (ViewEntry α) :=
  match pats with
  | .nil => []
  | .cons p rest =>
      dupdate (pattern_entries p default_args) (_get_patterns_map rest default_args)

/-- One iteration of the `_get_patterns_map` loop body: the entries
contributed by a single member of `url_patterns`, given the `default_args`
accumulated so far.  For a nested resolver this recurses with the resolver's
`default_kwargs` merged in; for a pattern it records the `name` entry and then
the `_callback_str` entry, both mapping to the callback paired with
`pattern_args`. -/
def pattern_entries (p : URLPat α) (default_args : Dict α) : Dict (ViewEntry α) :=
  match p with
  | .resolver default_kwargs url_patterns =>
      _get_patterns_map url_patterns (dupdate default_args default_kwargs)
  | .pattern name callback_str callback own_default_args =>
      let pattern_args := dupdate default_args own_default_args
      let m1 : Dict (ViewEntry α) :=
        match name with
        | some n => [(n, (callback, pattern_args))]
        | none => []
      match callback_str with
      | some s => dupdate m1 [(s, (callback, pattern_args))]
      | none => m1

end

mutual

/-- Spec-side description of the map contents (claim C2), in traversal order:
for every URL pattern that has a name, and separately for every pattern whose
callback path string is recorded, one entry mapping that key to the pattern's
callback paired with its default kwargs, where the default kwargs of
enclosing nested resolvers are merged in and an inner pattern's own default
args override the defaults inherited from outer resolvers. -/
def specEntriesList (pats : URLPats α) (inherited : Dict α) : Dict (ViewEntry α) :=
  match pats with
  | .nil => []
  | .cons p rest => specEntriesOf p inherited ++ specEntriesList rest inherited

/-- Spec-side entries of a single urlconf node; see `specEntriesList`. -/
def specEntriesOf (p : URLPat α) (inherited : Dict α) : Dict (ViewEntry α) :=
  match p with
  | .resolver default_kwargs url_patterns =>
      specEntriesList url_patterns (dupdate inherited default_kwargs)
  | .pattern name callback_str callback own_default_args =>
      let merged := dupdate inherited own_default_args
      (match name with
        | some n => [(n, (callback, merged))]
        | none => [])
      ++ (match callback_str with
        | some s => [(s, (callback, merged))]
        | none => [])

end

mutual

/-- `_get_patterns_map` produces exactly the spec-side entries, reversed
(reversal makes the first-match lookup of the association list agree with
Python's last-write-wins dict semantics). -/
theorem _get_patterns_map_eq_spec :
    ∀ (pats : URLPats α) (d : Dict α),
      _get_patterns_map pats d = (specEntriesList pats d).reverse
  | .nil, _ => rfl
  | .cons p rest, d => by
      simp only [_get_patterns_map, specEntriesList, dupdate, List.reverse_append,
        _get_patterns_map_eq_spec rest d, pattern_entries_eq_spec p d]

/-- The loop body of `_get_patterns_map` produces exactly the spec-side
entries of one urlconf node, reversed. -/
theorem pattern_entries_eq_spec :
    ∀ (p : URLPat α) (d : Dict α),
      pattern_entries p d = (specEntriesOf p d).reverse
  | .resolver dkw ps, d => _get_patterns_map_eq_spec ps (dupdate d dkw)
  | .pattern name cbstr cb da, d => by
      cases name <;> cases cbstr <;>
        simp [pattern_entries, specEntriesOf, dupdate]

end

/-- The `try/except` lookup at the end of `_get_view_and_default_args`:
indexing the cached map raises a (re-worded) `KeyError` exactly when the name
is absent. -/
def lookup_view (m : Dict (ViewEntry α)) (view_name : String) :
    Except PyErr (ViewEntry α) :=
  match dget m view_name with
  | some p => .ok p
  | none => .error (.keyError (view_name ++ " does not match any urlpatterns"))

/-- src/templatetags/if_active.py, `_get_view_and_default_args`, with the
module-global `_view_name_cache` passed and returned explicitly: when the
cache is `none` it is built from the urlconf (`get_resolver(None)` walked with
empty initial defaults), otherwise the cached map is used as is; the result is
the new cache paired with the lookup outcome. -/
def _get_view_and_default_args (urlconf : URLPats α)
    (view_name_cache : Option (Dict (ViewEntry α))) (view_name : String) :
    Option (Dict (ViewEntry α)) × Except PyErr (ViewEntry α) :=
  let cache :=
    match view_name_cache with
    | none => _get_patterns_map urlconf []
    | some m => m
  (some cache, lookup_view cache view_name)

/-- The template-rendering context, restricted to the two framework services
the tags use: `resolve_variable` (returning the request object bound to a
variable name) and `FilterExpression.resolve` on compiled expressions `ε`. -/
structure Context (ε : Type u) (α : Type u) : Type u where
  resolve_variable : String → Request α
  resolve : ε → α

/-- The slice of Django's template parser the tags use: `compile_filter`, and
the node lists produced by `parser.parse` for the block body (the `else`
section is present exactly when `else_present`).  A node list is abstracted by
its rendering function. -/
structure Parser (ε : Type u) (α : Type u) : Type u where
  compile_filter : String → ε
  active_nodes : Context ε α → String
  else_present : Bool
  inactive_nodes : Context ε α → String

/-- The `{% ifactive %}` node: request variable name, target view name, the
compiled positional and keyword argument expressions, and the two branches
(the inactive branch is `none` when there was no `{% else %}`). -/
structure ActiveNode (ε : Type u) (α : Type u) : Type u where
  request_var : String
  view_name : String
  args : List ε
  kwargs : Dict ε
  active_nodes : Context ε α → String
  inactive_nodes : Option (Context ε α → String)

/-- The dict compared against `request._view_kwargs` in `ActiveNode.render`:
the tag's keyword expressions resolved against the context, then updated with
the urlconf `default_args` (so default args override template values). -/
def ActiveNode.resolved_kwargs {ε : Type u} (node : ActiveNode ε α)
    (context : Context ε α) (default_args : Dict α) : Dict α :=
  dupdate (node.kwargs.map (fun kv => (kv.1, context.resolve kv.2))) default_args

/-- The fall-through tail of `ActiveNode.render`: the `else` block when
present, the empty string otherwise. -/
def ActiveNode.inactive_render {ε : Type u} (node : ActiveNode ε α)
    (context : Context ε α) : String :=
  match node.inactive_nodes with
  | some nl => nl context
  | none => ""

/-- src/templatetags/if_active.py, `ActiveNode.render`, with the process-wide
patterns map passed in as `cache`.  Python control flow preserved: a `KeyError`
from the name lookup propagates; `getattr(request, '_view_func', None)` is an
identity test against the resolved view; on a match the bare accesses of
`request._view_args` / `request._view_kwargs` raise `AttributeError` when the
attribute is absent; equality on lists and dicts is structural/extensional. -/
def ActiveNode.render [DecidableEq α] {ε : Type u} (node : ActiveNode ε α)
    (cache : Dict (ViewEntry α)) (context : Context ε α) : Except PyErr String :=
  let request := context.resolve_variable node.request_var
  match lookup_view cache node.view_name with
  | .error e => .error e
  | .ok (view, default_args) =>
    if request.view_func.getD none = view then
      match request.view_args with
      | none => .error (.attributeError "_view_args")
      | some view_args =>
        if view_args = node.args.map context.resolve then
          match request.view_kwargs with
          | none => .error (.attributeError "_view_kwargs")
          | some view_kwargs =>
            if DictEq view_kwargs (node.resolved_kwargs context default_args) then
              .ok (node.active_nodes context)
            else
              .ok (node.inactive_render context)
        else
          .ok (node.inactive_render context)
    else
      .ok (node.inactive_render context)

/-- Python `str.split(sep)` for a one-character separator: every occurrence
of `sep` splits, and empty fields are kept (so `"".split(sep) == ['']`).
Defined structurally over the character list so it evaluates in the kernel. -/
def pySplit (s : String) (sep : Char) : List String :=
  (s.data.splitOn sep).map List.asString

/-- Python `str.strip()`: leading and trailing whitespace removed.  Defined
structurally over the character list so it evaluates in the kernel. -/
def pyStrip (s : String) : String :=
  (((s.data.dropWhile Char.isWhitespace).reverse.dropWhile
      Char.isWhitespace).reverse).asString

/-- src/templatetags/if_active.py, `_parse_url_args`: splits each bit on
commas; an `=` makes a keyword argument (`arg.split('=', 1)`, key stripped,
value compiled, later duplicates override), a non-empty plain bit appends a
positional argument. -/
def _parse_url_args {ε : Type u} (compile_filter : String → ε) (bits : List String) :
    List ε × Dict ε :=
  (bits.flatMap (fun bit => pySplit bit ',')).foldl
    (fun acc arg =>
      match pySplit arg '=' with
      | k :: v :: vs =>
          (acc.1, (pyStrip k, compile_filter (String.intercalate "=" (v :: vs))) :: acc.2)
      | _ => if arg = "" then acc else (acc.1 ++ [compile_filter arg], acc.2))
    ([], [])

/-- src/templatetags/if_active.py, `do_ifactive`: parses the block (and the
optional `else` section), splits the tag token on spaces, raises
`TemplateSyntaxError` on fewer than three words, and otherwise builds the
`ActiveNode` from the second and third words and the remaining bits. -/
def do_ifactive {ε : Type u} (p : Parser ε α) (token : String) :
    Except PyErr (ActiveNode ε α) :=
  let active_nodes := p.active_nodes
  let inactive_nodes := if p.else_present then some p.inactive_nodes else none
  match pySplit token ' ' with
  | _tag :: request_var :: view_name :: rest =>
      let ak := _parse_url_args p.compile_filter rest
      .ok { request_var, view_name, args := ak.1, kwargs := ak.2,
            active_nodes, inactive_nodes }
  | tag_args =>
      .error (.templateSyntaxError ("'" ++ tag_args.headD "" ++
        "' takes at least two arguments (context variable with the request, and path to a view)"))

/-- src/templatetags/if_active.py, `do_activeif`: builds an `ActiveNode` whose
request variable is the literal name `request`, whose active branch is the
constant text `class="active"`, and which has no else branch; `tag_args[1]`
raises `IndexError` when the token has no second word. -/
def do_activeif {ε : Type u} (p : Parser ε α) (token : String) :
    Except PyErr (ActiveNode ε α) :=
  match pySplit token ' ' with
  | _tag :: view_name :: rest =>
      let ak := _parse_url_args p.compile_filter rest
      .ok { request_var := "request", view_name, args := ak.1, kwargs := ak.2,
            active_nodes := fun _ => "class=\"active\"", inactive_nodes := none }
  | _ => .error .indexError

/-- Normal form of `ActiveNode.render` when the name lookup succeeds and the
request carries the middleware attributes `_view_args` and `_view_kwargs`:
the output is the active branch when the three checks pass and the inactive
branch (else block or empty string) otherwise. -/
theorem render_eq_ite [DecidableEq α] {ε : Type u} (node : ActiveNode ε α)
    (cache : Dict (ViewEntry α)) (context : Context ε α)
    (view : Option Nat) (default_args : Dict α) (va : List α) (vk : Dict α)
    (hlk : lookup_view cache node.view_name = .ok (view, default_args))
    (hva : (context.resolve_variable node.request_var).view_args = some va)
    (hvk : (context.resolve_variable node.request_var).view_kwargs = some vk) :
    node.render cache context = .ok (
      if (context.resolve_variable node.request_var).view_func.getD none = view
          ∧ va = node.args.map context.resolve
          ∧ DictEq vk (node.resolved_kwargs context default_args)
        then node.active_nodes context
        else node.inactive_render context) := by
  by_cases h1 : (context.resolve_variable node.request_var).view_func.getD none = view
  · by_cases h2 : va = node.args.map context.resolve
    · by_cases h3 : DictEq vk (node.resolved_kwargs context default_args)
      · simp [ActiveNode.render, hlk, hva, hvk, h1, h2, h3]
      · simp [ActiveNode.render, hlk, hva, hvk, h1, h2, h3]
    · simp [ActiveNode.render, hlk, hva, hvk, h1, h2]
  · simp [ActiveNode.render, hlk, h1]

/-- A concrete request for witnesses: the middleware has stashed view `7`
with positional args `[2]` and kwargs `{k: 3}`. -/
def demoReq : Request Nat :=
  { view_func := some (some 7), view_args := some [2],
    view_kwargs := some [("k", 3)], other := [("path", "/x")] }

/-- A concrete context for witnesses: every variable resolves to `demoReq`
and a compiled expression (a string) resolves to its length. -/
def demoCtx : Context String Nat :=
  { resolve_variable := fun _ => demoReq, resolve := String.length }

/-- A concrete `ifactive` node for witnesses. -/
def demoNode : ActiveNode String Nat :=
  { request_var := "request", view_name := "home", args := ["ab"],
    kwargs := [("k", "xyz")], active_nodes := fun _ => "A",
    inactive_nodes := some (fun _ => "B") }

/-- A concrete patterns map for witnesses: `home` resolves to view `7` with
default args `{k: 3}`. -/
def demoCache : Dict (ViewEntry Nat) := [("home", (some 7, [("k", 3)]))]

/-- C1: whenever the target name resolves and the middleware attributes are
present on the request, the active block is rendered if and only if all three
checks pass — the stashed view function is the very view resolved from the
target name, the stashed positional args equal the resolved template args,
and the stashed kwargs equal the resolved template kwargs merged with the
urlconf default args — and in every other case the else block is rendered
(the empty string standing in when there is no else block). -/
theorem ifactive_render_active_iff [DecidableEq α] {ε : Type u}
    (node : ActiveNode ε α) (cache : Dict (ViewEntry α)) (context : Context ε α)
    (view : Option Nat) (default_args : Dict α) (va : List α) (vk : Dict α)
    (hlk : lookup_view cache node.view_name = .ok (view, default_args))
    (hva : (context.resolve_variable node.request_var).view_args = some va)
    (hvk : (context.resolve_variable node.request_var).view_kwargs = some vk) :
    node.render cache context = .ok (
      if (context.resolve_variable node.request_var).view_func.getD none = view
          ∧ va = node.args.map context.resolve
          ∧ DictEq vk (node.resolved_kwargs context default_args)
        then node.active_nodes context
        else node.inactive_render context) :=
  render_eq_ite node cache context view default_args va vk hlk hva hvk

/-- Witness for C1 at the demo fixtures, where all three checks pass. -/
theorem ifactive_render_active_iff_witness :
    demoNode.render demoCache demoCtx = .ok "A" := by
  have h := ifactive_render_active_iff demoNode demoCache demoCtx (some 7)
    [("k", 3)] [2] [("k", 3)] rfl rfl rfl
  exact h.trans (by rfl)

/-- A concrete urlconf for witnesses: a top-level named pattern that also
records a callback path string, and a nested resolver whose `default_kwargs`
entry `lang=en` is overridden by the inner pattern's own `lang=fr`. -/
def demoUrlconf : URLPats String :=
  .cons (.pattern (some "home") (some "app.views.home") (some 7) [("page", "1")])
    (.cons (.resolver [("lang", "en")]
        (.cons (.pattern (some "about") none (some 9) [("lang", "fr")]) .nil))
      .nil)

/-- C2: whenever a recorded key (a pattern name, or a recorded callback path
string) occurs exactly once while walking the route table, the map built by
`_get_patterns_map` sends it to that pattern's callback paired with its
default args, with enclosing resolvers' default kwargs merged in and the
pattern's own defaults overriding the inherited ones. -/
theorem patterns_map_entry (pats : URLPats α) (key : String)
    (cb : Option Nat) (args : Dict α)
    (hmem : (key, (cb, args)) ∈ specEntriesList pats [])
    (huniq : ((specEntriesList pats []).map Prod.fst).count key = 1) :
    dget (_get_patterns_map pats []) key = some (cb, args) := by
  rw [_get_patterns_map_eq_spec]
  refine dget_of_count_one _ _ _ (List.mem_reverse.mpr hmem) ?_
  rw [List.map_reverse, List.count_reverse]
  exact huniq

/-- Witness for C2: in `demoUrlconf` the nested `about` pattern is found with
the resolver's `lang=en` inherited and overridden by its own `lang=fr`. -/
theorem patterns_map_entry_witness :
    dget (_get_patterns_map demoUrlconf []) "about" =
      some (some 9, [("lang", "fr"), ("lang", "en")]) :=
  patterns_map_entry demoUrlconf "about" (some 9) [("lang", "fr"), ("lang", "en")]
    (by decide) (by decide)

/-- A route table in which two patterns share the name `x`. -/
def shadowUrlconf : URLPats Nat :=
  .cons (.pattern (some "x") none (some 1) [])
    (.cons (.pattern (some "x") none (some 2) []) .nil)

/-- Counterexample to C2 read literally over all route tables: the first
pattern of `shadowUrlconf` has name `x` and callback `1`, yet the built map
sends `x` to callback `2` — when two walked patterns record the same key, the
later one wins, so the map does not map every named pattern's key to that
pattern's own callback. -/
theorem patterns_map_entry_counterexample :
    ("x", ((some 1 : Option Nat), ([] : Dict Nat))) ∈ specEntriesList shadowUrlconf []
      ∧ dget (_get_patterns_map shadowUrlconf []) "x" ≠ some (some 1, [])
      ∧ dget (_get_patterns_map shadowUrlconf []) "x" = some (some 2, []) := by
  decide

/-- C3: the name-to-handler cache is built at most once: a lookup with an
empty cache installs the map built from the route table, a lookup that finds
a non-`None` cache returns that very cache unchanged, and hence the cache
coming out of a second lookup is exactly the cache coming out of the first. -/
theorem view_name_cache_built_once (urlconf : URLPats α)
    (m : Dict (ViewEntry α)) (c : Option (Dict (ViewEntry α))) (n1 n2 : String) :
    (_get_view_and_default_args urlconf none n1).1 =
        some (_get_patterns_map urlconf [])
      ∧ (_get_view_and_default_args urlconf (some m) n1).1 = some m
      ∧ (_get_view_and_default_args urlconf
            (_get_view_and_default_args urlconf c n1).1 n2).1 =
          (_get_view_and_default_args urlconf c n1).1 := by
  refine ⟨rfl, rfl, ?_⟩
  cases c <;> rfl

/-- C4: the view-name lookup raises an error — a lookup-miss `KeyError` —
exactly when the name is absent from the built map, and for every name
present it returns the stored `(view, default args)` pair without error. -/
theorem lookup_view_error_iff (m : Dict (ViewEntry α)) (n : String) :
    ((∃ e, lookup_view m n = .error e) ↔ dget m n = none)
      ∧ (∀ e, lookup_view m n = .error e → ∃ msg, e = .keyError msg)
      ∧ (∀ p, dget m n = some p → lookup_view m n = .ok p) := by
  refine ⟨⟨?_, ?_⟩, ?_, ?_⟩
  · rintro ⟨e, he⟩
    cases h : dget m n with
    | none => rfl
    | some p => rw [lookup_view, h] at he; cases he
  · intro h
    exact ⟨_, by rw [lookup_view, h]⟩
  · intro e he
    cases h : dget m n with
    | none => rw [lookup_view, h] at he; cases he; exact ⟨_, rfl⟩
    | some p => rw [lookup_view, h] at he; cases he
  · intro p h
    rw [lookup_view, h]

/-- Witness for C4: `home` is present in `demoCache`, so the lookup returns
its pair. -/
theorem lookup_view_error_iff_witness :
    lookup_view demoCache "home" = .ok (some 7, [("k", 3)]) :=
  (lookup_view_error_iff demoCache "home").2.2 _ rfl

/-- C5: `process_view` stores the resolved view function, its positional args
converted to a list, and its keyword args as the request attributes
`_view_func`, `_view_args` and `_view_kwargs`, and modifies nothing else on
the request. -/
theorem process_view_stashes (r : Request α) (view_func : Nat)
    (view_args : Array α) (view_kwargs : Dict α) :
    (process_view r view_func view_args view_kwargs).view_func = some (some view_func)
      ∧ (process_view r view_func view_args view_kwargs).view_args =
          some view_args.toList
      ∧ (process_view r view_func view_args view_kwargs).view_kwargs =
          some view_kwargs
      ∧ (process_view r view_func view_args view_kwargs).other = r.other :=
  ⟨rfl, rfl, rfl, rfl⟩

/-- A concrete template parser for witnesses: expressions are kept as their
source text, the block body renders `X`, the else body `Y`. -/
def demoParser : Parser String Nat :=
  { compile_filter := id, active_nodes := fun _ => "X",
    else_present := true, inactive_nodes := fun _ => "Y" }

/-- The node `do_activeif` builds from the token `activeif home ab` with
`demoParser`. -/
def demoActiveifNode : ActiveNode String Nat :=
  { request_var := "request", view_name := "home", args := ["ab"], kwargs := [],
    active_nodes := fun _ => "class=\"active\"", inactive_nodes := none }

/-- C6: a node produced by `do_activeif` renders, against the request bound to
the context variable named `request`, the fixed string `class="active"` when
the named view with the given args/kwargs is active, and the empty string
otherwise. -/
theorem activeif_renders_class [DecidableEq α] {ε : Type u} (p : Parser ε α)
    (token : String) (node : ActiveNode ε α) (cache : Dict (ViewEntry α))
    (context : Context ε α) (view : Option Nat) (default_args : Dict α)
    (va : List α) (vk : Dict α)
    (hparse : do_activeif p token = .ok node)
    (hlk : lookup_view cache node.view_name = .ok (view, default_args))
    (hva : (context.resolve_variable "request").view_args = some va)
    (hvk : (context.resolve_variable "request").view_kwargs = some vk) :
    node.render cache context = .ok (
      if (context.resolve_variable "request").view_func.getD none = view
          ∧ va = node.args.map context.resolve
          ∧ DictEq vk (node.resolved_kwargs context default_args)
        then "class=\"active\"" else "") := by
  cases hs : pySplit token ' ' with
  | nil => simp [do_activeif, hs] at hparse
  | cons t tl =>
    cases tl with
    | nil => simp [do_activeif, hs] at hparse
    | cons vn rest =>
      simp only [do_activeif, hs] at hparse
      cases hparse
      exact render_eq_ite _ cache context view default_args va vk hlk hva hvk

/-- Witness for C6: rendering the `activeif home ab` node on the demo
fixtures yields `class="active"`. -/
theorem activeif_renders_class_witness :
    demoActiveifNode.render demoCache demoCtx = .ok "class=\"active\"" := by
  have h := activeif_renders_class demoParser "activeif home ab" demoActiveifNode
    demoCache demoCtx (some 7) [("k", 3)] [2] [("k", 3)] rfl rfl rfl rfl
  exact h.trans (by rfl)

/-- C7: each render call is a single equality-based decision: with the name
resolvable and the middleware attributes present, the output is exactly the
active branch's output or the inactive branch's output, and two renders whose
contexts agree on the request state, on expression resolution, and on the
branch outputs produce identical output. -/
theorem render_single_decision [DecidableEq α] {ε : Type u} (node : ActiveNode ε α)
    (cache : Dict (ViewEntry α)) (c1 c2 : Context ε α)
    (view : Option Nat) (default_args : Dict α) (va : List α) (vk : Dict α)
    (hlk : lookup_view cache node.view_name = .ok (view, default_args))
    (hva : (c1.resolve_variable node.request_var).view_args = some va)
    (hvk : (c1.resolve_variable node.request_var).view_kwargs = some vk)
    (hreq : c2.resolve_variable node.request_var = c1.resolve_variable node.request_var)
    (hres : c2.resolve = c1.resolve)
    (hact : node.active_nodes c2 = node.active_nodes c1)
    (hinact : node.inactive_render c2 = node.inactive_render c1) :
    (node.render cache c1 = .ok (node.active_nodes c1)
        ∨ node.render cache c1 = .ok (node.inactive_render c1))
      ∧ node.render cache c2 = node.render cache c1 := by
  have h1 := render_eq_ite node cache c1 view default_args va vk hlk hva hvk
  have h2 := render_eq_ite node cache c2 view default_args va vk hlk
    (by rw [hreq]; exact hva) (by rw [hreq]; exact hvk)
  constructor
  · rw [h1]
    split
    · exact Or.inl rfl
    · exact Or.inr rfl
  · rw [h1, h2]
    simp only [ActiveNode.resolved_kwargs, hreq, hres, hact, hinact]

/-- Witness for C7: at the demo fixtures the render output is one of the two
branch outputs. -/
theorem render_single_decision_witness :
    demoNode.render demoCache demoCtx = .ok "A"
      ∨ demoNode.render demoCache demoCtx = .ok "B" :=
  (render_single_decision demoNode demoCache demoCtx demoCtx (some 7)
    [("k", 3)] [2] [("k", 3)] rfl rfl rfl rfl rfl rfl rfl).1

/-- If a key is among the keys of a dict, its lookup succeeds. -/
theorem dget_isSome_of_mem (d : Dict α) (k : String)
    (h : k ∈ d.map Prod.fst) : (dget d k).isSome := by
  obtain ⟨⟨k1, v⟩, hmem, hk⟩ := List.mem_map.mp h
  rw [dget, Option.isSome_map', List.find?_isSome]
  exact ⟨(k1, v), hmem, by simp only [beq_iff_eq]; exact hk⟩

/-- C8: in the kwargs dict that `render` compares against the stashed kwargs,
urlconf default args take precedence over template-supplied keyword
arguments: any key present among both the tag's keyword arguments and the
target view's default args ends up with the default-arg value. -/
theorem resolved_kwargs_default_precedence {ε : Type u} (node : ActiveNode ε α)
    (context : Context ε α) (default_args : Dict α) (k : String)
    (_hk1 : k ∈ node.kwargs.map Prod.fst) (hk2 : k ∈ default_args.map Prod.fst) :
    dget (node.resolved_kwargs context default_args) k = dget default_args k := by
  obtain ⟨v, hv⟩ := Option.isSome_iff_exists.mp (dget_isSome_of_mem default_args k hk2)
  rw [ActiveNode.resolved_kwargs, dupdate, dget_append, hv]
  rfl

/-- Witness for C8: `demoNode` passes `k=xyz` but the default args say `k=3`,
and `3` wins. -/
theorem resolved_kwargs_default_precedence_witness :
    dget (demoNode.resolved_kwargs demoCtx [("k", 3)]) "k" = some 3 := by
  have h := resolved_kwargs_default_precedence demoNode demoCtx [("k", 3)] "k"
    (by decide) (by decide)
  exact h.trans (by rfl)

/-- A request with none of the middleware attributes, as when
`ActiveViewMiddleware` is not installed. -/
def demoBareReq : Request Nat :=
  { view_func := none, view_args := none, view_kwargs := none, other := [] }

/-- A context whose every variable resolves to the bare request. -/
def demoBareCtx : Context String Nat :=
  { resolve_variable := fun _ => demoBareReq, resolve := String.length }

/-- C9: when the request lacks the `_view_func` attribute and the target name
resolves to a non-None view, `render` takes the inactive branch without ever
reading `_view_args` or `_view_kwargs` (which may equally be absent), so it
returns the else block or the empty string instead of raising. -/
theorem render_without_middleware [DecidableEq α] {ε : Type u}
    (node : ActiveNode ε α) (cache : Dict (ViewEntry α)) (context : Context ε α)
    (v : Nat) (default_args : Dict α)
    (hlk : lookup_view cache node.view_name = .ok (some v, default_args))
    (hfn : (context.resolve_variable node.request_var).view_func = none) :
    node.render cache context = .ok (node.inactive_render context) := by
  simp [ActiveNode.render, hlk, hfn]

/-- Witness for C9: on the bare request the demo node renders its else
block. -/
theorem render_without_middleware_witness :
    demoNode.render demoCache demoBareCtx = .ok "B" := by
  have h := render_without_middleware demoNode demoCache demoBareCtx 7
    [("k", 3)] rfl rfl
  exact h.trans (by rfl)

/-- C10: `do_ifactive` raises a `TemplateSyntaxError` exactly when the tag
token has fewer than three space-separated words, and with at least three
words it succeeds with a node whose request variable and view name are the
second and third words. -/
theorem do_ifactive_arity_error_iff {ε : Type u} (p : Parser ε α) (token : String) :
    ((∃ msg, do_ifactive p token = .error (.templateSyntaxError msg))
        ↔ (pySplit token ' ').length < 3)
      ∧ (3 ≤ (pySplit token ' ').length →
          ∃ node, do_ifactive p token = .ok node
            ∧ node.request_var = (pySplit token ' ').getD 1 ""
            ∧ node.view_name = (pySplit token ' ').getD 2 "") := by
  cases hs : pySplit token ' ' with
  | nil => refine ⟨?_, ?_⟩ <;> simp [do_ifactive, hs]
  | cons a tl =>
    cases tl with
    | nil => refine ⟨?_, ?_⟩ <;> simp [do_ifactive, hs]
    | cons b tl2 =>
      cases tl2 with
      | nil => refine ⟨?_, ?_⟩ <;> simp [do_ifactive, hs]
      | cons c rest =>
        refine ⟨?_, ?_⟩ <;> simp [do_ifactive, hs]

/-- Witness for C10: the token `ifactive request home` parses, with request
variable `request` and view name `home`. -/
theorem do_ifactive_arity_error_iff_witness :
    ∃ node, do_ifactive demoParser "ifactive request home" = .ok node
      ∧ node.request_var = "request" ∧ node.view_name = "home" := by
  obtain ⟨node, h1, h2, h3⟩ :=
    (do_ifactive_arity_error_iff demoParser "ifactive request home").2 (by decide)
  exact ⟨node, h1, h2.trans (by rfl), h3.trans (by rfl)⟩

end IfActive
